import Mathlib

/-!
Shallow embedding of the dashboard program in `app.py` (amsys_crowd_demo):
fetching the sensor JSON, shaping the first three sensors into display
records, synthesizing a 10-point series per sensor, and assembling the
page of sensor cards.  Machine-level concerns (HTTP transport, the JSON
parser, the plotting library) are modelled by their observable outcomes;
everything the repository's own code computes is translated directly.
-/

namespace AmsysCrowd

/-- Decidable equality on `Except`, used to evaluate the pipeline on
concrete inputs. -/
instance {ε α : Type} [DecidableEq ε] [DecidableEq α] : DecidableEq (Except ε α) :=
  fun a b =>
    match a, b with
    | .ok x, .ok y =>
      if h : x = y then .isTrue (by rw [h])
      else .isFalse (by intro hc; cases hc; exact h rfl)
    | .error x, .error y =>
      if h : x = y then .isTrue (by rw [h])
      else .isFalse (by intro hc; cases hc; exact h rfl)
    | .ok _, .error _ => .isFalse (by intro hc; cases hc)
    | .error _, .ok _ => .isFalse (by intro hc; cases hc)

/-- Values that can sit in a raw sensor field as delivered by the API:
either a JSON number (integer) or a JSON string. -/
inductive PyVal where
  | int (n : Int)
  | str (s : String)
deriving DecidableEq

/-- Raw sensor record from the API.  Each field is `none` when the key is
absent from the JSON object (accessing it raises KeyError in the source). -/
structure RawSensor where
  NumberInline : Option PyVal
  SensorPercentage : Option PyVal
  ServeTimeFrames : Option PyVal
  DataReadTime : Option String
deriving DecidableEq

/-- Shaped sensor record: the dict built inside the `processed_data` loop of
`app.py` (lines 43-49). -/
structure DisplaySensor where
  SensorDesc : String
  NumberInline : Int
  SensorPercentage : Int
  ServeTimeFrames : Int
  DataReadTime : String
deriving DecidableEq

/-- Value of a decimal digit character, `none` for anything else. -/
def decDigit (c : Char) : Option Nat :=
  if '0' ≤ c ∧ c ≤ '9' then some (c.toNat - '0'.toNat) else none

/-- Accumulate a run of decimal digits; any non-digit fails. -/
def parseDigitsAux (acc : Nat) : List Char → Option Nat
  | [] => some acc
  | c :: cs =>
    match decDigit c with
    | none => none
    | some d => parseDigitsAux (acc * 10 + d) cs

/-- A non-empty all-digit run as a number. -/
def parseDigits : List Char → Option Nat
  | [] => none
  | c :: cs => parseDigitsAux 0 (c :: cs)

/-- Python's `int(x)` on the string values that occur in sensor fields: an
optionally signed run of decimal digits, surrounding whitespace ignored;
anything else is a ValueError, modelled as `none`. -/
def pyStrToInt (s : String) : Option Int :=
  let t := ((s.data.dropWhile Char.isWhitespace).reverse.dropWhile
    Char.isWhitespace).reverse
  match t with
  | '-' :: rest => (parseDigits rest).map (fun n => -(n : Int))
  | '+' :: rest => (parseDigits rest).map (fun n => (n : Int))
  | rest => (parseDigits rest).map (fun n => (n : Int))

/-- Python's `int(x)` on the values that occur in sensor fields: an integer
passes through, a string is parsed as a signed decimal literal. -/
def pyInt : PyVal → Option Int
  | .int n => some n
  | .str s => pyStrToInt s

/-- Errors that can escape the shaping loop of `app.py`. -/
inductive ShapeError where
  | keyError (field : String)
  | valueError (field : String)
  | nameKeyError (idx : Nat)
deriving DecidableEq

/-- Recognizer for the missing-positional-name error (`sensor_name_map[idx]`
raising KeyError). -/
def isNameKeyError : ShapeError → Bool
  | .nameKeyError _ => true
  | _ => false

/-- The positional rename table `sensor_name_map` of `app.py` (lines 34-38):
exactly the keys 0, 1, 2. -/
def sensor_name_map : Nat → Option String
  | 0 => some "Jamara 1"
  | 1 => some "BTW Jam 1&2"
  | 2 => some "Jamara 2"
  | _ => none

/-- Field access plus `int(...)` coercion, `int(sensor[field])` in the
source: KeyError when the key is missing, ValueError when the value is not
numeric. -/
def getIntField (field : String) : Option PyVal → Except ShapeError Int
  | none => .error (.keyError field)
  | some v =>
    match pyInt v with
    | none => .error (.valueError field)
    | some n => .ok n

/-- One iteration of the `processed_data` loop (lines 41-50): look up the
positional name, then coerce the three numeric fields and read the
timestamp, in source order. -/
def shapeOne (idx : Nat) (s : RawSensor) : Except ShapeError DisplaySensor :=
  match sensor_name_map idx with
  | none => .error (.nameKeyError idx)
  | some desc =>
    match getIntField "NumberInline" s.NumberInline with
    | .error e => .error e
    | .ok ni =>
      match getIntField "SensorPercentage" s.SensorPercentage with
      | .error e => .error e
      | .ok sp =>
        match getIntField "ServeTimeFrames" s.ServeTimeFrames with
        | .error e => .error e
        | .ok st =>
          match s.DataReadTime with
          | none => .error (.keyError "DataReadTime")
          | some t => .ok ⟨desc, ni, sp, st, t⟩

/-- The enumerated shaping loop: first uncaught exception aborts, otherwise
the shaped records accumulate in order. -/
def processLoop : Nat → List RawSensor → Except ShapeError (List DisplaySensor)
  | _, [] => .ok []
  | idx, s :: rest =>
    match shapeOne idx s with
    | .error e => .error e
    | .ok d =>
      match processLoop (idx + 1) rest with
      | .error e => .error e
      | .ok ds => .ok (d :: ds)

/-- The whole shaping step: `selected_sensors = sensors_data[:3]` followed by
the `processed_data` loop. -/
def shape (sensors : List RawSensor) : Except ShapeError (List DisplaySensor) :=
  processLoop 0 (sensors.take 3)

/-- All three numeric fields of a raw sensor are present and coercible by
`int(...)`. -/
def goodNumericFields (s : RawSensor) : Bool :=
  (s.NumberInline.bind pyInt).isSome &&
  (s.SensorPercentage.bind pyInt).isSome &&
  (s.ServeTimeFrames.bind pyInt).isSome

/-- The synthesized data frame of `create_df` (lines 54-62).  A timestamp of
`pd.date_range(start, periods 10, freq 15min)` is modelled as the start
string paired with the offset in minutes. -/
structure SeriesFrame where
  time : List (String × Nat)
  percentage : List Int
  intermission : List ℚ
deriving DecidableEq

/-- Translation of `create_df`: ten points, 15 minutes apart, with
`percentage = SensorPercentage + ((i*3) % 30)` and
`intermission = ServeTimeFrames / 10 + (i % 10)` (true division).  The
`pd.date_range` parse of the start timestamp, which inside pandas rejects
strings its external dateutil parser cannot read, is not modelled: the
frame describes the runs in which the timestamp parses. -/
def create_df (d : DisplaySensor) : SeriesFrame :=
  { time := (List.range 10).map (fun i => (d.DataReadTime, 15 * i))
    percentage := (List.range 10).map
      (fun i => d.SensorPercentage + (((i * 3) % 30 : Nat) : Int))
    intermission := (List.range 10).map
      (fun i => (d.ServeTimeFrames : ℚ) / 10 + ((i % 10 : Nat) : ℚ)) }

/-- Uncaught Python exceptions that abort startup. -/
inductive PyError where
  | typeError
  | indexError
  | shapeError (e : ShapeError)
deriving DecidableEq

/-- Splitting a character list on the separator character `T`, the semantics
of Python's `str.split("T")`: always returns at least one (possibly empty)
piece. -/
def splitOnT : List Char → List (List Char)
  | [] => [[]]
  | c :: rest =>
    if c = 'T' then [] :: splitOnT rest
    else
      match splitOnT rest with
      | [] => [[c]]
      | x :: xs => (c :: x) :: xs

/-- The date/time pieces the chart title interpolates,
`data_read_time.split("T")[0]` and `data_read_time.split("T")[1]` in
`create_complex_graph` (line 87): piece 0 always exists, piece 1 raises
IndexError when the string holds no `T`. -/
def chartDateTime (s : String) : Except PyError (String × String) :=
  match splitOnT s.data with
  | d :: t :: _ => .ok (⟨d⟩, ⟨t⟩)
  | _ => .error .indexError

/-- Observable content of one sensor card section as assembled by
`create_section` (lines 104-142): the stat panel values, the emotion
label/color, and the chart title and series. -/
structure Section where
  sensorDesc : String
  numberInline : Int
  waitTimeMinutes : ℚ
  emotionLabel : String
  emotionColor : String
  chartTitle : String
  series : SeriesFrame
deriving DecidableEq

/-- Translation of `create_section`: the emotion threshold at 50, the
synthesized frame, and the chart whose title splits `DataReadTime` on
`T`.  In the source `create_df` runs first (line 108) and its pandas
timestamp parse can itself abort on strings the external parser rejects;
that parse is not modelled (see `create_df`), so the title split is the
failing step among the modelled ones and this definition covers the runs
in which the timestamp parses. -/
def create_section (d : DisplaySensor) : Except PyError Section :=
  let emotion_label := if d.SensorPercentage < 50 then "Calm" else "Busy"
  let emotion_color := if d.SensorPercentage < 50 then "yellow" else "red"
  let df := create_df d
  match chartDateTime d.DataReadTime with
  | .error e => .error e
  | .ok dt =>
    .ok { sensorDesc := d.SensorDesc
          numberInline := d.NumberInline
          waitTimeMinutes := (d.ServeTimeFrames : ℚ) / 10
          emotionLabel := emotion_label
          emotionColor := emotion_color
          chartTitle := d.SensorDesc ++ " | Date: " ++ dt.1 ++ " | Time: " ++ dt.2
          series := df }

/-- Parsed top-level API payload: `sensorList` is `none` when the JSON
object has no `SensorList` key (so also for the fallback `data = dict()`). -/
structure ApiData where
  sensorList : Option (List RawSensor)
deriving DecidableEq

/-- Translation of `data.get('SensorList', [])` (line 30). -/
def getSensorList (d : ApiData) : List RawSensor :=
  d.sensorList.getD []

/-- Outcome of the one HTTP GET, as seen by the try block: either a
transport-level exception from `requests.get`, or a response with a status
code, an optional `Content-Type` header, and a parsed JSON body. -/
inductive HttpOutcome where
  | transportError
  | response (status : Nat) (contentType : Option String) (body : ApiData)
deriving DecidableEq

/-- A character list contains `pat` as a contiguous sublist starting at the
front. -/
def startsWithChars : List Char → List Char → Bool
  | [], _ => true
  | _ :: _, [] => false
  | p :: ps, c :: cs => p = c && startsWithChars ps cs

/-- A character list contains `pat` as a contiguous sublist somewhere,
the semantics of Python's `pat in s` on strings. -/
def hasSubChars (pat : List Char) : List Char → Bool
  | [] => startsWithChars pat []
  | c :: cs => startsWithChars pat (c :: cs) || hasSubChars pat cs

/-- The content-type test `'application/json' in content_type` for a header
that is present. -/
def ctJson (ct : String) : Bool :=
  hasSubChars "application/json".data ct.data

/-- Translation of the fetch try/except block (lines 15-27).
`raise_for_status` raises `requests.exceptions.HTTPError` (a
`RequestException`) exactly for a 4xx or 5xx status; that exception and
any transport exception are caught and degrade to `data = dict()`.  Any
other final status (a 2xx, but equally a 3xx that was not redirected
away) proceeds: `response.headers.get('Content-Type')` is `None` for an
absent header, and `'application/json' in None` raises TypeError, which
the `except requests.exceptions.RequestException` clause does not catch. -/
inductive FetchResult where
  | ok (data : ApiData)
  | fatal (e : PyError)
deriving DecidableEq

/-- The fetch step itself. -/
def fetchStep : HttpOutcome → FetchResult
  | .transportError => .ok ⟨none⟩
  | .response status ct body =>
    if 400 ≤ status ∧ status < 600 then .ok ⟨none⟩
    else
      match ct with
      | none => .fatal .typeError
      | some c => if ctJson c then .ok body else .ok ⟨none⟩

/-- Header title of the page (line 152). -/
def headerTitle : String := "POC: Real-time Crowd Intelligence"

/-- The rendered page: the header plus the ordered sensor card sections. -/
structure Page where
  title : String
  sections : List Section
deriving DecidableEq

/-- The list comprehension `[create_section(sensor) for sensor in
processed_data]` (line 146): the first exception aborts. -/
def buildSections : List DisplaySensor → Except PyError (List Section)
  | [] => .ok []
  | d :: rest =>
    match create_section d with
    | .error e => .error e
    | .ok sec =>
      match buildSections rest with
      | .error e => .error e
      | .ok secs => .ok (sec :: secs)

/-- The whole module-level startup pipeline of `app.py`: fetch, shape,
build the sections, assemble the layout.  An uncaught exception anywhere
aborts startup with that error; otherwise the static page is served. -/
def appStartup (o : HttpOutcome) : Except PyError Page :=
  match fetchStep o with
  | .fatal e => .error e
  | .ok data =>
    match shape (getSensorList data) with
    | .error e => .error (.shapeError e)
    | .ok ds =>
      match buildSections ds with
      | .error e => .error e
      | .ok secs => .ok ⟨headerTitle, secs⟩

/-- The error outcomes the fetch failure policy recovers from: a transport
exception, a 4xx/5xx status (the ones `raise_for_status` raises on), or a
present content-type header that is not JSON. -/
def fetchErrorOutcome : HttpOutcome → Bool
  | .transportError => true
  | .response status ct _ =>
    decide (400 ≤ status ∧ status < 600) ||
      (match ct with
       | some c => !ctJson c
       | none => false)

/-- Number of sensor card sections on a rendered page, `none` when startup
aborted. -/
def pageCardCount (r : Except PyError Page) : Option Nat :=
  match r with
  | .ok p => some p.sections.length
  | .error _ => none

/-- Whether an `Except` computation succeeded. -/
def exceptIsOk : Except ε α → Bool
  | .ok _ => true
  | .error _ => false

/-- Sample raw sensor with all fields present and numeric (`NumberInline`
delivered as a numeric string). -/
def rawGood : RawSensor :=
  ⟨some (.str "5"), some (.int 40), some (.int 50), some "2024-05-01T14:30:00"⟩

/-- Sample raw sensor whose `NumberInline` is a non-numeric string. -/
def rawBad : RawSensor :=
  ⟨some (.str "abc"), some (.int 40), some (.int 50), some "2024-05-01T14:30:00"⟩

/-- Sample fetched list with four sensors. -/
def xs4 : List RawSensor := [rawGood, rawGood, rawGood, rawGood]

/-- The shaped records produced from `xs4`. -/
def dl3 : List DisplaySensor :=
  [⟨"Jamara 1", 5, 40, 50, "2024-05-01T14:30:00"⟩,
   ⟨"BTW Jam 1&2", 5, 40, 50, "2024-05-01T14:30:00"⟩,
   ⟨"Jamara 2", 5, 40, 50, "2024-05-01T14:30:00"⟩]

/-- Sample shaped sensor (percentage 40, serve time frames 50). -/
def sensorEx : DisplaySensor := ⟨"Jamara 1", 5, 40, 50, "2024-05-01T14:30:00"⟩

/-- Sample shaped sensor agreeing with `sensorEx` on the fields the series
synthesizer reads, differing elsewhere. -/
def sensorEx2 : DisplaySensor := ⟨"Other", 99, 40, 50, "2024-05-01T14:30:00"⟩

/-- Sample shaped sensor at percentage 49. -/
def sensor49 : DisplaySensor := ⟨"Jamara 1", 5, 49, 50, "2024-05-01T14:30:00"⟩

/-- Sample shaped sensor at percentage 50. -/
def sensor50 : DisplaySensor := ⟨"Jamara 1", 5, 50, 50, "2024-05-01T14:30:00"⟩

/-- Placeholder section used only as the default of an extraction. -/
def emptySection : Section := ⟨"", 0, 0, "", "", "", ⟨[], [], []⟩⟩

/-- The card section built from `sensor49`. -/
def section49 : Section := (create_section sensor49).toOption.getD emptySection

/-- The card section built from `sensor50`. -/
def section50 : Section := (create_section sensor50).toOption.getD emptySection



lemma getIntField_ok {f : String} {v : Option PyVal} {n : Int} :
    getIntField f v = Except.ok n ↔ v.bind pyInt = some n := by
  cases v with
  | none => simp [getIntField]
  | some pv =>
    cases hp : pyInt pv <;> simp [getIntField, hp]

lemma shapeOne_ok_spec {idx : Nat} {s : RawSensor} {d : DisplaySensor}
    (h : shapeOne idx s = Except.ok d) :
    sensor_name_map idx = some d.SensorDesc ∧ goodNumericFields s = true := by
  unfold shapeOne at h
  split at h
  · exact absurd h (by simp)
  next desc hmap =>
    split at h
    · exact absurd h (by simp)
    next ni hni =>
      split at h
      · exact absurd h (by simp)
      next sp hsp =>
        split at h
        · exact absurd h (by simp)
        next st hst =>
          split at h
          · exact absurd h (by simp)
          next t ht =>
            cases h
            refine ⟨hmap, ?_⟩
            rw [getIntField_ok] at hni hsp hst
            simp [goodNumericFields, hni, hsp, hst]

lemma processLoop_ok : ∀ (ss : List RawSensor) (idx : Nat) (l : List DisplaySensor),
    processLoop idx ss = Except.ok l →
    l.length = ss.length ∧
    l.map DisplaySensor.SensorDesc =
      (List.range ss.length).map (fun j => (sensor_name_map (idx + j)).getD "") ∧
    ∀ s ∈ ss, goodNumericFields s = true := by
  intro ss
  induction ss with
  | nil =>
    intro idx l h
    simp only [processLoop] at h
    cases h
    simp
  | cons a rest ih =>
    intro idx l h
    simp only [processLoop] at h
    cases h0 : shapeOne idx a with
    | error e => rw [h0] at h; simp at h
    | ok d =>
      rw [h0] at h
      cases h1 : processLoop (idx + 1) rest with
      | error e => rw [h1] at h; simp at h
      | ok ds =>
        rw [h1] at h
        simp only [] at h
        cases h
        obtain ⟨hlen, hmap, hgood⟩ := ih (idx + 1) ds h1
        obtain ⟨hdesc, hgooda⟩ := shapeOne_ok_spec h0
        refine ⟨by simp [hlen], ?_, ?_⟩
        · have hfun : (fun j => (sensor_name_map (idx + j)).getD "") ∘ Nat.succ
              = fun j => (sensor_name_map (idx + 1 + j)).getD "" := by
            funext j
            simp only [Function.comp]
            have harith : idx + Nat.succ j = idx + 1 + j := by omega
            rw [harith]
          simp only [List.length_cons, List.range_succ_eq_map, List.map_cons,
            List.map_map]
          rw [hfun, ← hmap]
          simp [hdesc]
        · intro s hs
          rcases List.mem_cons.mp hs with rfl | hs2
          · exact hgooda
          · exact hgood s hs2


lemma getIntField_error {f : String} {v : Option PyVal} {e : ShapeError}
    (h : getIntField f v = Except.error e) :
    e = ShapeError.keyError f ∨ e = ShapeError.valueError f := by
  cases v with
  | none =>
    simp only [getIntField] at h
    cases h
    exact Or.inl rfl
  | some pv =>
    cases hp : pyInt pv <;> simp only [getIntField, hp] at h
    · cases h
      exact Or.inr rfl
    · exact absurd h (by simp)

lemma shapeOne_error_no_name {idx : Nat} {s : RawSensor} {e : ShapeError}
    (hidx : idx < 3) (h : shapeOne idx s = Except.error e) :
    isNameKeyError e = false := by
  unfold shapeOne at h
  split at h
  next hmap =>
    interval_cases idx <;> simp [sensor_name_map] at hmap
  next desc hmap =>
    split at h
    next e1 h1 =>
      cases h
      rcases getIntField_error h1 with rfl | rfl <;> rfl
    next ni h1 =>
      split at h
      next e2 h2 =>
        cases h
        rcases getIntField_error h2 with rfl | rfl <;> rfl
      next sp h2 =>
        split at h
        next e3 h3 =>
          cases h
          rcases getIntField_error h3 with rfl | rfl <;> rfl
        next st h3 =>
          split at h
          next ht =>
            cases h
            rfl
          next t ht =>
            exact absurd h (by simp)

lemma processLoop_error_no_name : ∀ (ss : List RawSensor) (idx : Nat) (e : ShapeError),
    ss.length + idx ≤ 3 → processLoop idx ss = Except.error e →
    isNameKeyError e = false := by
  intro ss
  induction ss with
  | nil =>
    intro idx e hb h
    simp [processLoop] at h
  | cons a rest ih =>
    intro idx e hb h
    simp only [processLoop] at h
    cases h0 : shapeOne idx a with
    | error e1 =>
      rw [h0] at h
      cases h
      exact shapeOne_error_no_name (by simp at hb; omega) h0
    | ok d =>
      rw [h0] at h
      cases h1 : processLoop (idx + 1) rest with
      | error e1 =>
        rw [h1] at h
        cases h
        exact ih (idx + 1) e (by simp at hb; omega) h1
      | ok ds =>
        rw [h1] at h
        simp at h

/-- C1: for every fetched SensorList of length N, shaping (when it returns)
produces exactly min(N, 3) DisplaySensor records, whose SensorDesc fields
are assigned purely by position from the name map, entries beyond index 2
being dropped. -/
theorem claim_C1_shape_positional (xs : List RawSensor) (l : List DisplaySensor)
    (h : shape xs = Except.ok l) :
    l.length = min xs.length 3 ∧
    l.map DisplaySensor.SensorDesc =
      ["Jamara 1", "BTW Jam 1&2", "Jamara 2"].take xs.length := by
  obtain ⟨hlen, hmap, -⟩ := processLoop_ok (xs.take 3) 0 l h
  have hlen3 : (xs.take 3).length = min xs.length 3 := by
    simp [Nat.min_comm]
  constructor
  · rw [hlen, hlen3]
  · rw [hmap, hlen3]
    have h2 : (["Jamara 1", "BTW Jam 1&2", "Jamara 2"] : List String).take xs.length =
        ["Jamara 1", "BTW Jam 1&2", "Jamara 2"].take (min xs.length 3) := by
      rw [List.take_eq_take]
      simp only [List.length_cons, List.length_nil]
      omega
    rw [h2]
    have hg : min xs.length 3 ≤ 3 := Nat.min_le_right _ _
    generalize hgen : min xs.length 3 = m at hg ⊢
    interval_cases m <;> decide

/-- C1 witness: a four-sensor list shapes to exactly the three positionally
named records. -/
theorem claim_C1_witness :
    shape xs4 = Except.ok dl3 ∧
    (dl3.length = min xs4.length 3 ∧
     dl3.map DisplaySensor.SensorDesc =
       ["Jamara 1", "BTW Jam 1&2", "Jamara 2"].take xs4.length) :=
  ⟨by decide, claim_C1_shape_positional xs4 dl3 (by decide)⟩

/-- C2 counterexample: a final 300 response with a JSON content type is a
non-2xx outcome that does not degrade to an empty result: `raise_for_status`
raises only for 4xx/5xx, so the body is parsed and the page renders one
sensor card rather than zero. -/
theorem claim_C2_counterexample :
    ¬(200 ≤ 300 ∧ (300 : Nat) < 300) ∧
    fetchStep (HttpOutcome.response 300 (some "application/json") ⟨some [rawGood]⟩) =
      FetchResult.ok ⟨some [rawGood]⟩ ∧
    pageCardCount (appStartup (HttpOutcome.response 300 (some "application/json")
      ⟨some [rawGood]⟩)) = some 1 := by
  refine ⟨by decide, by decide, by decide⟩

/-- C2 (amended): every fetch outcome the failure policy recovers from — a
transport exception, a 4xx or 5xx status (exactly the ones
`raise_for_status` raises on), or a present non-JSON content type — degrades
to the empty payload inside the fetch step, so startup succeeds with the
header and zero sensor card sections, the error never propagating. -/
theorem claim_C2_fetch_errors_degrade (o : HttpOutcome)
    (h : fetchErrorOutcome o = true) :
    fetchStep o = FetchResult.ok ⟨none⟩ ∧
    appStartup o = Except.ok ⟨headerTitle, []⟩ := by
  have hf : fetchStep o = FetchResult.ok ⟨none⟩ := by
    cases o with
    | transportError => rfl
    | response status ct body =>
      by_cases hs : 400 ≤ status ∧ status < 600
      · simp [fetchStep, hs]
      · cases ct with
        | none => simp [fetchErrorOutcome, hs] at h
        | some c =>
          have hc : ctJson c = false := by
            simpa [fetchErrorOutcome, hs] using h
          simp [fetchStep, hs, hc]
  refine ⟨hf, ?_⟩
  unfold appStartup
  rw [hf]
  rfl

/-- C2 witness: a 404 response renders the page with a header and no
cards. -/
theorem claim_C2_witness :
    fetchErrorOutcome (HttpOutcome.response 404 (some "application/json") ⟨some [rawGood]⟩) = true ∧
    (fetchStep (HttpOutcome.response 404 (some "application/json") ⟨some [rawGood]⟩) =
       FetchResult.ok ⟨none⟩ ∧
     appStartup (HttpOutcome.response 404 (some "application/json") ⟨some [rawGood]⟩) =
       Except.ok ⟨headerTitle, []⟩) :=
  ⟨by decide, claim_C2_fetch_errors_degrade _ (by decide)⟩

/-- C10: a 2xx response with no Content-Type header at all does not degrade
to an empty list: the membership test on the absent header raises an
uncaught TypeError and startup aborts. -/
theorem claim_C10_missing_content_type_fatal (status : Nat) (body : ApiData)
    (h1 : 200 ≤ status) (h2 : status < 300) :
    fetchStep (HttpOutcome.response status none body) = FetchResult.fatal PyError.typeError ∧
    appStartup (HttpOutcome.response status none body) = Except.error PyError.typeError := by
  have hf : fetchStep (HttpOutcome.response status none body) =
      FetchResult.fatal PyError.typeError := by
    have hns : ¬(400 ≤ status ∧ status < 600) := by omega
    simp [fetchStep, hns]
  refine ⟨hf, ?_⟩
  unfold appStartup
  rw [hf]

/-- C10 witness: status 200 with an absent Content-Type header aborts
startup with the TypeError. -/
theorem claim_C10_witness :
    (200 : Nat) ≤ 200 ∧ (200 : Nat) < 300 ∧
    (fetchStep (HttpOutcome.response 200 none ⟨none⟩) = FetchResult.fatal PyError.typeError ∧
     appStartup (HttpOutcome.response 200 none ⟨none⟩) = Except.error PyError.typeError) :=
  ⟨by decide, by decide, claim_C10_missing_content_type_fatal 200 ⟨none⟩ (by decide) (by decide)⟩

/-- C8: a selected raw sensor whose numeric fields are not all coercible
makes the shaping step fail, and the failure propagates: startup aborts
with no fallback to a partial or empty page. -/
theorem claim_C8_bad_numeric_fatal (xs : List RawSensor) (s : RawSensor)
    (o : HttpOutcome) (hmem : s ∈ xs.take 3) (hbad : goodNumericFields s = false)
    (hf : fetchStep o = FetchResult.ok ⟨some xs⟩) :
    exceptIsOk (shape xs) = false ∧ exceptIsOk (appStartup o) = false := by
  have hsh : exceptIsOk (shape xs) = false := by
    cases hsx : shape xs with
    | error e => rfl
    | ok l =>
      obtain ⟨-, -, hgood⟩ := processLoop_ok (xs.take 3) 0 l hsx
      rw [hgood s hmem] at hbad
      cases hbad
  refine ⟨hsh, ?_⟩
  unfold appStartup
  rw [hf]
  show exceptIsOk (match shape (getSensorList ⟨some xs⟩) with
    | .error e => Except.error (PyError.shapeError e)
    | .ok ds =>
      match buildSections ds with
      | .error e => Except.error e
      | .ok secs => Except.ok (⟨headerTitle, secs⟩ : Page)) = false
  have hgs : getSensorList ⟨some xs⟩ = xs := rfl
  rw [hgs]
  cases hsx : shape xs with
  | error e => rfl
  | ok l => rw [hsx] at hsh; cases hsh

/-- C8 witness: a sensor with non-numeric NumberInline aborts shaping and
startup. -/
theorem claim_C8_witness :
    rawBad ∈ ([rawBad] : List RawSensor).take 3 ∧
    goodNumericFields rawBad = false ∧
    fetchStep (HttpOutcome.response 200 (some "application/json") ⟨some [rawBad]⟩) =
      FetchResult.ok ⟨some [rawBad]⟩ ∧
    (exceptIsOk (shape [rawBad]) = false ∧
     exceptIsOk (appStartup (HttpOutcome.response 200 (some "application/json")
       ⟨some [rawBad]⟩)) = false) :=
  ⟨by decide, by decide, by decide,
   claim_C8_bad_numeric_fatal [rawBad] rawBad _ (by decide) (by decide) (by decide)⟩

/-- C9: the positional name lookup never fails: a shaping error is never
the missing-name-key error, whatever the input list. -/
theorem claim_C9_name_lookup_total (xs : List RawSensor) (e : ShapeError)
    (h : shape xs = Except.error e) : isNameKeyError e = false := by
  refine processLoop_error_no_name (xs.take 3) 0 e ?_ h
  simp [Nat.min_comm]

/-- C9 witness: the error raised on a malformed sensor is a value error,
not the name-map key error. -/
theorem claim_C9_witness :
    shape [rawBad] = Except.error (ShapeError.valueError "NumberInline") ∧
    isNameKeyError (ShapeError.valueError "NumberInline") = false :=
  ⟨by decide,
   claim_C9_name_lookup_total [rawBad] (ShapeError.valueError "NumberInline") (by decide)⟩

/-- C3: the synthesized percentage series is SensorPercentage + ((i*3) mod
30) at every index i below 10; at base 40 it is the listed sequence. -/
theorem claim_C3_percentage_series (d : DisplaySensor) (i : Nat) (h : i < 10) :
    (create_df d).percentage.get? i =
      some (d.SensorPercentage + (((i * 3) % 30 : Nat) : Int)) ∧
    (d.SensorPercentage = 40 →
      (create_df d).percentage = [40, 43, 46, 49, 52, 55, 58, 61, 64, 67]) := by
  constructor
  · simp [create_df, List.getElem?_map, List.getElem?_range h]
  · intro h40
    simp only [create_df]
    simp only [h40]
    decide

/-- C3 witness: the sample sensor at base 40. -/
theorem claim_C3_witness :
    (create_df sensorEx).percentage.get? 3 =
      some (sensorEx.SensorPercentage + (((3 * 3) % 30 : Nat) : Int)) ∧
    (create_df sensorEx).percentage = [40, 43, 46, 49, 52, 55, 58, 61, 64, 67] :=
  ⟨(claim_C3_percentage_series sensorEx 3 (by decide)).1,
   (claim_C3_percentage_series sensorEx 0 (by decide)).2 rfl⟩

/-- C4: the synthesized intermission series is ServeTimeFrames/10 (exact
rational division) + (i mod 10) at every index i below 10; at
ServeTimeFrames 50 it is 5 through 14. -/
theorem claim_C4_intermission_series (d : DisplaySensor) (i : Nat) (h : i < 10) :
    (create_df d).intermission.get? i =
      some ((d.ServeTimeFrames : ℚ) / 10 + ((i % 10 : Nat) : ℚ)) ∧
    (d.ServeTimeFrames = 50 →
      (create_df d).intermission = [5, 6, 7, 8, 9, 10, 11, 12, 13, 14]) := by
  constructor
  · simp [create_df, List.getElem?_map, List.getElem?_range h]
  · intro h50
    simp only [create_df]
    simp only [h50]
    norm_num [List.range_succ]

/-- C4 witness: the sample sensor at ServeTimeFrames 50. -/
theorem claim_C4_witness :
    (create_df sensorEx).intermission.get? 3 =
      some ((sensorEx.ServeTimeFrames : ℚ) / 10 + ((3 % 10 : Nat) : ℚ)) ∧
    (create_df sensorEx).intermission = [5, 6, 7, 8, 9, 10, 11, 12, 13, 14] :=
  ⟨(claim_C4_intermission_series sensorEx 3 (by decide)).1,
   (claim_C4_intermission_series sensorEx 0 (by decide)).2 rfl⟩

/-- C7: the series synthesizer is a pure deterministic function of the
reading: it depends only on the DataReadTime, SensorPercentage and
ServeTimeFrames fields, so two calls on equal readings give identical
frames. -/
theorem claim_C7_series_deterministic (d1 d2 : DisplaySensor)
    (ht : d1.DataReadTime = d2.DataReadTime)
    (hp : d1.SensorPercentage = d2.SensorPercentage)
    (hs : d1.ServeTimeFrames = d2.ServeTimeFrames) :
    create_df d1 = create_df d2 := by
  simp only [create_df, ht, hp, hs]

/-- C7 witness: two readings agreeing on the three inputs of the
synthesizer produce the same frame. -/
theorem claim_C7_witness :
    sensorEx.DataReadTime = sensorEx2.DataReadTime ∧
    sensorEx.SensorPercentage = sensorEx2.SensorPercentage ∧
    sensorEx.ServeTimeFrames = sensorEx2.ServeTimeFrames ∧
    create_df sensorEx = create_df sensorEx2 :=
  ⟨rfl, rfl, rfl, claim_C7_series_deterministic sensorEx sensorEx2 rfl rfl rfl⟩

/-- C5: a built card's emotion is Calm/yellow exactly when SensorPercentage
is below 50, and Busy/red exactly when it is at least 50. -/
theorem claim_C5_emotion_threshold (d : DisplaySensor) (sec : Section)
    (h : create_section d = Except.ok sec) :
    (sec.emotionLabel = "Calm" ∧ sec.emotionColor = "yellow" ↔ d.SensorPercentage < 50) ∧
    (sec.emotionLabel = "Busy" ∧ sec.emotionColor = "red" ↔ 50 ≤ d.SensorPercentage) := by
  simp only [create_section] at h
  cases hdt : chartDateTime d.DataReadTime with
  | error e => rw [hdt] at h; simp at h
  | ok dt =>
    rw [hdt] at h
    simp only [Except.ok.injEq] at h
    subst h
    by_cases hp : d.SensorPercentage < 50
    · simp only [if_pos hp]
      constructor
      · simp [hp]
      · constructor
        · intro hc
          exact absurd hc.1 (by decide)
        · intro hge
          omega
    · simp only [if_neg hp]
      constructor
      · constructor
        · intro hc
          exact absurd hc.1 (by decide)
        · intro hlt
          exact absurd hlt hp
      · simp
        omega

/-- C5 witness: percentage 49 gives Calm/yellow, percentage 50 gives
Busy/red. -/
theorem claim_C5_witness :
    create_section sensor49 = Except.ok section49 ∧
    (section49.emotionLabel = "Calm" ∧ section49.emotionColor = "yellow") ∧
    create_section sensor50 = Except.ok section50 ∧
    (section50.emotionLabel = "Busy" ∧ section50.emotionColor = "red") :=
  ⟨rfl,
   (claim_C5_emotion_threshold sensor49 section49 rfl).1.mpr (by decide),
   rfl,
   (claim_C5_emotion_threshold sensor50 section50 rfl).2.mpr (by decide)⟩

end AmsysCrowd
